import Mathlib

/-!
Verification of the civic_ledger program (smart_city_os repository).

The development shallowly embeds the Rust/Anchor sources
`programs/civic_ledger/src/{air_quality.rs, contract.rs, utils.rs, errors.rs,
events.rs}` of the economically-gated revision:

* `f32` sensor values are modelled as exact rationals (`ℚ`); every property
  proved below is evaluated far from any rounding boundary of `f32`.
* `u16`/`u32` machine integers are modelled as `ℕ`, with the `u32` counter
  increments taken modulo `2 ^ 32` (the release-profile wrapping semantics);
  `i64` timestamps are modelled as `ℤ`.
* `Clock::get().unix_timestamp` is modelled by an explicit `now : Int`
  argument; a single invocation sees a single `now`.
* `Result<T>` is modelled as `Except CustomError T`.  An instruction that
  returns an error commits nothing: the host transaction discards all account
  writes.  The function `committed` makes that commit boundary explicit.
* `emit!` side effects are modelled by returning the list of emitted events
  next to the post-state; the Rust functions' own return payload (`()` on
  success) is recovered by `returnValue`.
* Anchor account constraints (`has_one = authority`, PDA derivation, account
  allocation) are enforced by the host before the embedded handler bodies run
  and are not re-modelled.
-/

namespace CivicLedger

/-- Account addresses and authorities (`Pubkey`) are opaque identities. -/
abbrev Pubkey := Nat

/-- Error codes, from `errors.rs` (`CustomError`). -/
inductive CustomError where
  | UnauthorizedAccess
  | InvalidAQIValue
  | InvalidPM25Value
  | InvalidPM10Value
  | InvalidCO2Value
  | InvalidHumidityValue
  | InvalidTemperatureValue
  | NameTooLong
  | DescriptionTooLong
  | ContractTypeTooLong
  | ContractInactive
  | InvalidInput
  | OperationNotPermitted
  | AccountAlreadyExists
  | AccountNotFound
  | InsufficientPermissions
  | DataValidationFailed
  | UpdateThresholdNotMet
  | BatchOperationLimitExceeded
  | EconomicThresholdNotMet
  deriving DecidableEq, Repr

/-- The error kinds that `validate_sensor_data` / `validate_contract_data`
can raise (the spec's `ValidationError` family, including the generic
`InvalidInput`). -/
def CustomError.isValidationError : CustomError → Bool
  | .InvalidAQIValue | .InvalidPM25Value | .InvalidPM10Value | .InvalidCO2Value
  | .InvalidHumidityValue | .InvalidTemperatureValue
  | .NameTooLong | .DescriptionTooLong | .ContractTypeTooLong
  | .InvalidInput => true
  | _ => false

/-- Events, from `events.rs`.  Only the payload fields of the Rust `#[event]`
structs are kept. -/
inductive Event where
  | AirQualityInitialized (air_quality : Pubkey) (location sensor_id : String)
      (authority : Pubkey)
  | AirQualityUpdated (air_quality : Pubkey) (aqi : Nat)
      (pm25 pm10 co2 humidity temperature : ℚ) (timestamp : Int)
  | ContractInitialized (contract : Pubkey) (name description contract_type : String)
      (authority : Pubkey)
  | ContractStatusUpdated (contract : Pubkey) (is_active : Bool) (timestamp : Int)
  | ContractUpdated (contract : Pubkey) (name description contract_type : String)
      (version : Nat) (timestamp : Int)
  | ContractExecuted (contract : Pubkey) (execution_count : Nat) (timestamp : Int)
  deriving DecidableEq, Repr

/-- The `AirQuality` account (`air_quality.rs`).  `key` is the account address
the host resolved for this record; it is never mutated and only feeds events. -/
structure AirQuality where
  key : Pubkey
  location : String
  sensor_id : String
  authority : Pubkey
  aqi : Nat
  pm25 : ℚ
  pm10 : ℚ
  co2 : ℚ
  humidity : ℚ
  temperature : ℚ
  created_at : Int
  updated_at : Int
  update_count : Nat
  deriving DecidableEq, Repr

/-- `AirQuality::validate_sensor_data`: each `require!` in source order. -/
def AirQuality.validate_sensor_data (aqi : Nat)
    (pm25 pm10 co2 humidity temperature : ℚ) : Except CustomError Unit :=
  if ¬ aqi ≤ 500 then .error .InvalidAQIValue
  else if ¬ (0 ≤ pm25 ∧ pm25 ≤ 1000) then .error .InvalidPM25Value
  else if ¬ (0 ≤ pm10 ∧ pm10 ≤ 1000) then .error .InvalidPM10Value
  else if ¬ (0 ≤ co2 ∧ co2 ≤ 10000) then .error .InvalidCO2Value
  else if ¬ (0 ≤ humidity ∧ humidity ≤ 100) then .error .InvalidHumidityValue
  else if ¬ (-50 ≤ temperature ∧ temperature ≤ 100) then .error .InvalidTemperatureValue
  else .ok ()

/-- `AirQuality::is_significant_change`.  The Rust reads the clock inside the
method; here `now` is passed in.  The `f32` thresholds `0.05`, `0.1`, `5.0`,
`2.0` are the exact rationals they denote. -/
def AirQuality.is_significant_change (s : AirQuality) (now : Int) (aqi : Nat)
    (pm25 pm10 co2 humidity temperature : ℚ) : Bool :=
  let aqi_change : Bool :=
    decide (|(aqi : ℚ) - (s.aqi : ℚ)| / ((max s.aqi 1 : Nat) : ℚ) > 5 / 100)
  let pm25_change : Bool := decide (|pm25 - s.pm25| / max s.pm25 1 > 1 / 10)
  let pm10_change : Bool := decide (|pm10 - s.pm10| / max s.pm10 1 > 1 / 10)
  let co2_change : Bool := decide (|co2 - s.co2| / max s.co2 1 > 5 / 100)
  let humidity_change : Bool := decide (|humidity - s.humidity| > 5)
  let temp_change : Bool := decide (|temperature - s.temperature| > 2)
  let time_threshold : Bool := decide (now - s.updated_at > 86400)
  aqi_change || pm25_change || pm10_change || co2_change || humidity_change ||
    temp_change || time_threshold

/-- `AirQuality::update_data`: validate, then overwrite all six metrics, set
`updated_at` to the clock and increment the `u32` counter (wrapping). -/
def AirQuality.update_data (s : AirQuality) (now : Int) (aqi : Nat)
    (pm25 pm10 co2 humidity temperature : ℚ) : Except CustomError AirQuality :=
  match AirQuality.validate_sensor_data aqi pm25 pm10 co2 humidity temperature with
  | .error e => .error e
  | .ok _ => .ok { s with
      aqi := aqi, pm25 := pm25, pm10 := pm10, co2 := co2,
      humidity := humidity, temperature := temperature,
      updated_at := now, update_count := (s.update_count + 1) % 2 ^ 32 }

/-- The `Contract` account (`contract.rs`). -/
structure Contract where
  key : Pubkey
  name : String
  description : String
  contract_type : String
  authority : Pubkey
  is_active : Bool
  created_at : Int
  updated_at : Int
  version : Nat
  execution_count : Nat
  deriving DecidableEq, Repr

/-- `Contract::validate_contract_data`: each `require!` in source order.
Rust `str::len` is the UTF-8 byte length. -/
def Contract.validate_contract_data (name description contract_type : String) :
    Except CustomError Unit :=
  if ¬ name.utf8ByteSize ≤ 50 then .error .NameTooLong
  else if ¬ description.utf8ByteSize ≤ 200 then .error .DescriptionTooLong
  else if ¬ contract_type.utf8ByteSize ≤ 30 then .error .ContractTypeTooLong
  else if name.isEmpty then .error .InvalidInput
  else if contract_type.isEmpty then .error .InvalidInput
  else .ok ()

/-- First block of `Contract::update_contract`: optional name replacement.
The candidate is validated against the *current* description and type before
being written, and only when it differs from the current name. -/
def Contract.nameStep (r : Contract) : Option String → Except CustomError (Contract × Bool)
  | none => .ok (r, false)
  | some new_name =>
    if new_name ≠ r.name then
      match Contract.validate_contract_data new_name r.description r.contract_type with
      | .error e => .error e
      | .ok _ => .ok ({ r with name := new_name }, true)
    else .ok (r, false)

/-- Second block of `Contract::update_contract`: optional description
replacement (validated against the possibly already-replaced name). -/
def Contract.descriptionStep (r : Contract) : Option String → Except CustomError (Contract × Bool)
  | none => .ok (r, false)
  | some new_description =>
    if new_description ≠ r.description then
      match Contract.validate_contract_data r.name new_description r.contract_type with
      | .error e => .error e
      | .ok _ => .ok ({ r with description := new_description }, true)
    else .ok (r, false)

/-- Third block of `Contract::update_contract`: optional type replacement. -/
def Contract.typeStep (r : Contract) : Option String → Except CustomError (Contract × Bool)
  | none => .ok (r, false)
  | some new_type =>
    if new_type ≠ r.contract_type then
      match Contract.validate_contract_data r.name r.description new_type with
      | .error e => .error e
      | .ok _ => .ok ({ r with contract_type := new_type }, true)
    else .ok (r, false)

/-- `Contract::update_contract`: the three optional replacements in source
order; if anything changed, bump `updated_at` and the `u32` `version`
(wrapping) and report `true` (the spec's `Updated`), else `false` (`Skipped`). -/
def Contract.update_contract (r : Contract) (now : Int)
    (name description contract_type : Option String) :
    Except CustomError (Contract × Bool) := do
  let (r1, changed1) ← Contract.nameStep r name
  let (r2, changed2) ← Contract.descriptionStep r1 description
  let (r3, changed3) ← Contract.typeStep r2 contract_type
  if changed1 || changed2 || changed3 then
    pure ({ r3 with updated_at := now, version := (r3.version + 1) % 2 ^ 32 }, true)
  else
    pure (r3, false)

/-- `Contract::execute`: `require!(self.is_active)`, then increment the `u32`
execution counter (wrapping) and stamp `updated_at`. -/
def Contract.execute (r : Contract) (now : Int) : Except CustomError Contract :=
  if ¬ r.is_active then .error .ContractInactive
  else .ok { r with
      execution_count := (r.execution_count + 1) % 2 ^ 32, updated_at := now }

/-- `InitializeAirQuality::process`: only the two maximum-length `require!`
checks guard sensor creation; the record starts with the default safe values
from the source (`co2 = 400.0`, `humidity = 50.0`, `temperature = 20.0`). -/
def InitializeAirQuality.process (key authority : Pubkey) (now : Int)
    (location sensor_id : String) : Except CustomError (AirQuality × List Event) :=
  if ¬ location.utf8ByteSize ≤ 50 then .error .NameTooLong
  else if ¬ sensor_id.utf8ByteSize ≤ 30 then .error .NameTooLong
  else
    .ok ({ key := key, location := location, sensor_id := sensor_id,
           authority := authority, created_at := now, updated_at := now,
           update_count := 0, aqi := 0, pm25 := 0, pm10 := 0, co2 := 400,
           humidity := 50, temperature := 20 },
         [Event.AirQualityInitialized key location sensor_id authority])

/-- `UpdateAirQuality::process`: the Rust early-returns `Ok(())` when the
change is not significant (no mutation, no event); otherwise it runs
`update_data` and emits `AirQualityUpdated`. -/
def UpdateAirQuality.process (s : AirQuality) (now : Int) (aqi : Nat)
    (pm25 pm10 co2 humidity temperature : ℚ) :
    Except CustomError (AirQuality × List Event) :=
  if s.is_significant_change now aqi pm25 pm10 co2 humidity temperature then
    match s.update_data now aqi pm25 pm10 co2 humidity temperature with
    | .error e => .error e
    | .ok s' =>
      .ok (s', [Event.AirQualityUpdated s.key aqi pm25 pm10 co2 humidity
                  temperature s'.updated_at])
  else
    .ok (s, [])

/-- A sensor batch entry `(aqi, pm25, pm10, co2, humidity, temp)` from
`Vec<(u16, f32, f32, f32, f32, f32)>`. -/
abbrev SensorData := Nat × ℚ × ℚ × ℚ × ℚ × ℚ

/-- One iteration of the `BatchUpdateAirQuality::process` loop body: gate on
`is_significant_change`, then `update_data` (fallible) and emit; an
insignificant entry is silently skipped. -/
def batchBody (s : AirQuality) (now : Int) : SensorData →
    Except CustomError (AirQuality × List Event)
  | (aqi, pm25, pm10, co2, humidity, temperature) =>
    if s.is_significant_change now aqi pm25 pm10 co2 humidity temperature then
      match s.update_data now aqi pm25 pm10 co2 humidity temperature with
      | .error e => .error e
      | .ok s' =>
        .ok (s', [Event.AirQualityUpdated s.key aqi pm25 pm10 co2 humidity
                    temperature s'.updated_at])
    else .ok (s, [])

/-- The loop of `BatchUpdateAirQuality::process` over the three fixed
accounts, unrolled per admissible list length.  The final arm is unreachable
under the size guard of `BatchUpdateAirQuality.process`. -/
def BatchUpdateAirQuality.loop (s1 s2 s3 : AirQuality) (now : Int) :
    List SensorData →
    Except CustomError ((AirQuality × AirQuality × AirQuality) × List Event)
  | [] => .ok ((s1, s2, s3), [])
  | [v1] => do
    let (t1, e1) ← batchBody s1 now v1
    pure ((t1, s2, s3), e1)
  | [v1, v2] => do
    let (t1, e1) ← batchBody s1 now v1
    let (t2, e2) ← batchBody s2 now v2
    pure ((t1, t2, s3), e1 ++ e2)
  | [v1, v2, v3] => do
    let (t1, e1) ← batchBody s1 now v1
    let (t2, e2) ← batchBody s2 now v2
    let (t3, e3) ← batchBody s3 now v3
    pure ((t1, t2, t3), e1 ++ e2 ++ e3)
  | _ :: _ :: _ :: _ :: _ => .error .InvalidInput

/-- `BatchUpdateAirQuality::process`: `require!(sensor_data.len() <= 3,
CustomError::InvalidInput)`, then the per-entry loop. -/
def BatchUpdateAirQuality.process (s1 s2 s3 : AirQuality) (now : Int)
    (sensor_data : List SensorData) :
    Except CustomError ((AirQuality × AirQuality × AirQuality) × List Event) :=
  if ¬ sensor_data.length ≤ 3 then .error .InvalidInput
  else BatchUpdateAirQuality.loop s1 s2 s3 now sensor_data

/-- `InitializeContract::process`: validate, then create the record with
`is_active = true`, `version = 1`, `execution_count = 0`. -/
def InitializeContract.process (key authority : Pubkey) (now : Int)
    (name description contract_type : String) :
    Except CustomError (Contract × List Event) :=
  match Contract.validate_contract_data name description contract_type with
  | .error e => .error e
  | .ok _ =>
    .ok ({ key := key, name := name, description := description,
           contract_type := contract_type, authority := authority,
           is_active := true, created_at := now, updated_at := now,
           version := 1, execution_count := 0 },
         [Event.ContractInitialized key name description contract_type authority])

/-- `UpdateContract::process_status_update`: write-if-different flag flip. -/
def UpdateContract.process_status_update (r : Contract) (now : Int)
    (is_active : Bool) : Except CustomError (Contract × List Event) :=
  if r.is_active ≠ is_active then
    .ok ({ r with is_active := is_active, updated_at := now },
         [Event.ContractStatusUpdated r.key is_active now])
  else .ok (r, [])

/-- `UpdateContractDetails::process`: run `update_contract`; emit
`ContractUpdated` only when something changed (the event echoes the provided
fields, defaulting to the post-update record's values). -/
def UpdateContractDetails.process (r : Contract) (now : Int)
    (name description contract_type : Option String) :
    Except CustomError (Contract × List Event) :=
  match r.update_contract now name description contract_type with
  | .error e => .error e
  | .ok (r', changed) =>
    if changed then
      .ok (r', [Event.ContractUpdated r'.key (name.getD r'.name)
                  (description.getD r'.description)
                  (contract_type.getD r'.contract_type) r'.version r'.updated_at])
    else .ok (r', [])

/-- `ExecuteContract::process`: `execute`, then emit `ContractExecuted`. -/
def ExecuteContract.process (r : Contract) (now : Int) :
    Except CustomError (Contract × List Event) :=
  match r.execute now with
  | .error e => .error e
  | .ok r' => .ok (r', [Event.ContractExecuted r'.key r'.execution_count r'.updated_at])

/-- One iteration of the `BatchContractOperation::process_batch_status_update`
loop body (infallible: a flag flip needs no validation). -/
def statusBody (r : Contract) (now : Int) (is_active : Bool) : Contract × List Event :=
  if r.is_active ≠ is_active then
    ({ r with is_active := is_active, updated_at := now },
     [Event.ContractStatusUpdated r.key is_active now])
  else (r, [])

/-- The loop of `BatchContractOperation::process_batch_status_update` over the
two fixed accounts, unrolled; the final arm is unreachable under the size
guard. -/
def BatchContractOperation.loop (c1 c2 : Contract) (now : Int) :
    List Bool → Except CustomError ((Contract × Contract) × List Event)
  | [] => .ok ((c1, c2), [])
  | [b1] =>
    let (t1, e1) := statusBody c1 now b1
    .ok ((t1, c2), e1)
  | [b1, b2] =>
    let (t1, e1) := statusBody c1 now b1
    let (t2, e2) := statusBody c2 now b2
    .ok ((t1, t2), e1 ++ e2)
  | _ :: _ :: _ :: _ => .error .InvalidInput

/-- `BatchContractOperation::process_batch_status_update`:
`require!(statuses.len() <= 2, CustomError::InvalidInput)`, then the per-entry
loop. -/
def BatchContractOperation.process_batch_status_update (c1 c2 : Contract)
    (now : Int) (statuses : List Bool) :
    Except CustomError ((Contract × Contract) × List Event) :=
  if ¬ statuses.length ≤ 2 then .error .InvalidInput
  else BatchContractOperation.loop c1 c2 now statuses

/-- `EconomicOptimizer::calculate_update_priority` (`utils.rs`): the mutable
`score` accumulation, one `if / else if / else if` ladder per field. -/
def EconomicOptimizer.calculate_update_priority
    (aqi_change pm25_change pm10_change co2_change humidity_change temp_change : ℚ)
    (time_since_update : Int) : Nat :=
  let score : Nat := 0
  let score := if aqi_change > 10 then score + 100
    else if aqi_change > 5 then score + 50
    else if aqi_change > 2 then score + 20 else score
  let score := if pm25_change > 15 then score + 80
    else if pm25_change > 10 then score + 40
    else if pm25_change > 5 then score + 16 else score
  let score := if pm10_change > 20 then score + 60
    else if pm10_change > 15 then score + 30
    else if pm10_change > 10 then score + 12 else score
  let score := if co2_change > 100 then score + 40
    else if co2_change > 50 then score + 20
    else if co2_change > 25 then score + 8 else score
  let score := if humidity_change > 20 then score + 20
    else if humidity_change > 10 then score + 10
    else if humidity_change > 5 then score + 4 else score
  let score := if temp_change > 10 then score + 30
    else if temp_change > 5 then score + 15
    else if temp_change > 2 then score + 6 else score
  let score := if time_since_update > 86400 then score + 100
    else if time_since_update > 43200 then score + 50
    else if time_since_update > 21600 then score + 25 else score
  score

/-- `EconomicOptimizer::should_update`: absolute deltas of the six metric
pairs, elapsed time from the injected clock, then the priority comparison. -/
def EconomicOptimizer.should_update (old_aqi new_aqi : Nat)
    (old_pm25 new_pm25 old_pm10 new_pm10 old_co2 new_co2
      old_humidity new_humidity old_temp new_temp : ℚ)
    (last_update now : Int) (minimum_score : Nat) : Bool :=
  let aqi_change := |(new_aqi : ℚ) - (old_aqi : ℚ)|
  let pm25_change := |new_pm25 - old_pm25|
  let pm10_change := |new_pm10 - old_pm10|
  let co2_change := |new_co2 - old_co2|
  let humidity_change := |new_humidity - old_humidity|
  let temp_change := |new_temp - old_temp|
  let time_since_update := now - last_update
  decide (EconomicOptimizer.calculate_update_priority aqi_change pm25_change
    pm10_change co2_change humidity_change temp_change time_since_update ≥
    minimum_score)

/-- The state the host transaction commits: the post-state on `Ok`, the
untouched pre-state on any error (all-or-nothing commit boundary). -/
def committed {σ : Type} (pre : σ) (res : Except CustomError (σ × List Event)) : σ :=
  match res with
  | .ok (post, _) => post
  | .error _ => pre

/-- The value the caller of a handler receives: the Rust functions all return
`Result<()>`, so state and events are erased. -/
def returnValue {σ : Type} (res : Except CustomError (σ × List Event)) :
    Except CustomError Unit :=
  match res with
  | .ok _ => .ok ()
  | .error e => .error e

/-- Specification-side description of one `if / else if / else if` ladder of
`calculate_update_priority`: only the single highest matching tier scores. -/
def highestTier {α : Type} [LinearOrder α] (x t1 t2 t3 : α) (s1 s2 s3 : Nat) : Nat :=
  if x > t1 then s1 else if x > t2 then s2 else if x > t3 then s3 else 0

/-- A batch entry whose proposed value set passes the significance gate for
its target record but fails range validation. -/
def badEntry (s : AirQuality) (now : Int) : SensorData → Prop
  | (aqi, pm25, pm10, co2, humidity, temperature) =>
    s.is_significant_change now aqi pm25 pm10 co2 humidity temperature = true ∧
    AirQuality.validate_sensor_data aqi pm25 pm10 co2 humidity temperature ≠ .ok ()

instance {ε α : Type} [DecidableEq ε] [DecidableEq α] : DecidableEq (Except ε α) :=
  fun x y =>
  match x, y with
  | .error a, .error b =>
    if h : a = b then isTrue (by rw [h]) else isFalse (fun hc => h (Except.error.inj hc))
  | .error _, .ok _ => isFalse (fun hc => Except.noConfusion hc)
  | .ok _, .error _ => isFalse (fun hc => Except.noConfusion hc)
  | .ok a, .ok b =>
    if h : a = b then isTrue (by rw [h]) else isFalse (fun hc => h (Except.ok.inj hc))

/-- A concrete sensor record used to instantiate the theorems: AQI 50, last
written at time 0. -/
def sensorFixture : AirQuality :=
  { key := 1, location := "downtown", sensor_id := "aq-1", authority := 7,
    aqi := 50, pm25 := 10, pm10 := 10, co2 := 400, humidity := 50,
    temperature := 20, created_at := 0, updated_at := 0, update_count := 0 }

/-- A sensor record sitting at the top of the AQI range. -/
def sensorAtCap : AirQuality :=
  { key := 2, location := "edge", sensor_id := "aq-2", authority := 7,
    aqi := 500, pm25 := 0, pm10 := 0, co2 := 400, humidity := 50,
    temperature := 20, created_at := 0, updated_at := 0, update_count := 0 }

/-- A concrete active contract used to instantiate the theorems. -/
def contractFixture : Contract :=
  { key := 3, name := "water", description := "city water supply",
    contract_type := "utility", authority := 7, is_active := true,
    created_at := 0, updated_at := 0, version := 1, execution_count := 0 }

theorem empty_utf8ByteSize : ("" : String).utf8ByteSize = 0 := rfl

theorem empty_isEmpty : ("" : String).isEmpty = true := rfl

theorem sensorFixture_insig_52 :
    sensorFixture.is_significant_change 82800 52 10 10 400 50 20 = false := by
  norm_num [AirQuality.is_significant_change, sensorFixture]

theorem sensorFixture_sig_60 :
    sensorFixture.is_significant_change 82800 60 10 10 400 50 20 = true := by
  norm_num [AirQuality.is_significant_change, sensorFixture]

theorem validate_52_ok :
    AirQuality.validate_sensor_data 52 10 10 400 50 20 = .ok () := by
  norm_num [AirQuality.validate_sensor_data]

theorem validate_60_ok :
    AirQuality.validate_sensor_data 60 10 10 400 50 20 = .ok () := by
  norm_num [AirQuality.validate_sensor_data]

/-- C4: for every sensor record and every in-range proposed value set that is
not a significant change, `UpdateSensor` succeeds as `Skipped`: the returned
record is the unchanged input (`updateCount`, all six metric fields and
`updatedAt` untouched) and no event is emitted. -/
theorem updateSensor_insignificant_skips (s : AirQuality) (now : Int) (aqi : Nat)
    (pm25 pm10 co2 humidity temperature : ℚ)
    (hval : AirQuality.validate_sensor_data aqi pm25 pm10 co2 humidity temperature = .ok ())
    (hsig : s.is_significant_change now aqi pm25 pm10 co2 humidity temperature = false) :
    UpdateAirQuality.process s now aqi pm25 pm10 co2 humidity temperature = .ok (s, []) := by
  simp [UpdateAirQuality.process, hsig]

/-- C4 witness: the spec scenario — sensor at AQI 50, proposed AQI 52 (a 4%
change) with 23 hours elapsed and all other metrics unchanged is skipped. -/
theorem updateSensor_insignificant_skips_witness :
    UpdateAirQuality.process sensorFixture 82800 52 10 10 400 50 20 =
      .ok (sensorFixture, []) :=
  updateSensor_insignificant_skips sensorFixture 82800 52 10 10 400 50 20
    validate_52_ok sensorFixture_insig_52

/-- C5: for every sensor record and every in-range proposed value set that is
a significant change (and a non-wrapping counter), `UpdateSensor` returns
`Updated`: all six proposed metric values are written, `updatedAt` becomes the
current time, `updateCount` grows by exactly 1, and the update event is
emitted. -/
theorem updateSensor_significant_updates (s : AirQuality) (now : Int) (aqi : Nat)
    (pm25 pm10 co2 humidity temperature : ℚ)
    (hval : AirQuality.validate_sensor_data aqi pm25 pm10 co2 humidity temperature = .ok ())
    (hsig : s.is_significant_change now aqi pm25 pm10 co2 humidity temperature = true)
    (hcnt : s.update_count + 1 < 2 ^ 32) :
    UpdateAirQuality.process s now aqi pm25 pm10 co2 humidity temperature =
      .ok ({ s with
             aqi := aqi, pm25 := pm25, pm10 := pm10, co2 := co2,
             humidity := humidity, temperature := temperature,
             updated_at := now, update_count := s.update_count + 1 },
           [Event.AirQualityUpdated s.key aqi pm25 pm10 co2 humidity temperature now]) := by
  have hm : (s.update_count + 1) % 4294967296 = s.update_count + 1 :=
    Nat.mod_eq_of_lt (by omega)
  simp [UpdateAirQuality.process, hsig, AirQuality.update_data, hval, hm]

/-- C5 witness: the spec scenario — the same sensor updated to AQI 60 (a 20%
change) is applied, with `updateCount` going from 0 to 1. -/
theorem updateSensor_significant_updates_witness :
    UpdateAirQuality.process sensorFixture 82800 60 10 10 400 50 20 =
      .ok ({ sensorFixture with aqi := 60, updated_at := 82800, update_count := 1 },
           [Event.AirQualityUpdated sensorFixture.key 60 10 10 400 50 20 82800]) := by
  have h := updateSensor_significant_updates sensorFixture 82800 60 10 10 400 50 20
    validate_60_ok sensorFixture_sig_60 (by decide)
  simpa [sensorFixture] using h

/-- C2 counterexample: a skipping invocation and an applying invocation of
`UpdateSensor` hand the caller the *same* return value `Ok(())`; the claim
that the two outcomes are distinguishable in the value returned to the caller
is false at this input.  (The first invocation leaves the record unchanged and
emits nothing, the second mutates it and emits an event.) -/
theorem updateSensor_return_indistinguishable :
    UpdateAirQuality.process sensorFixture 82800 52 10 10 400 50 20 =
      .ok (sensorFixture, []) ∧
    UpdateAirQuality.process sensorFixture 82800 60 10 10 400 50 20 =
      .ok ({ sensorFixture with aqi := 60, updated_at := 82800, update_count := 1 },
           [Event.AirQualityUpdated 1 60 10 10 400 50 20 82800]) ∧
    returnValue (UpdateAirQuality.process sensorFixture 82800 52 10 10 400 50 20) =
      returnValue (UpdateAirQuality.process sensorFixture 82800 60 10 10 400 50 20) := by
  have h52 : UpdateAirQuality.process sensorFixture 82800 52 10 10 400 50 20 =
      .ok (sensorFixture, []) := by
    simp [UpdateAirQuality.process, sensorFixture_insig_52]
  have h60 : UpdateAirQuality.process sensorFixture 82800 60 10 10 400 50 20 =
      .ok ({ sensorFixture with aqi := 60, updated_at := 82800, update_count := 1 },
           [Event.AirQualityUpdated 1 60 10 10 400 50 20 82800]) := by
    simp [UpdateAirQuality.process, sensorFixture_sig_60, AirQuality.update_data,
      validate_60_ok]
    simp [sensorFixture]
  refine ⟨h52, h60, ?_⟩
  rw [h52, h60]
  simp [returnValue]

/-- C2 (amended): a `Skipped` outcome is a successful no-op — `Ok` with the
record unchanged and no event — but it is *not* distinguishable from `Updated`
in the value returned to the caller: every invocation with in-range values
returns the same `Ok(())`, whether it applied the mutation or skipped it.
Only the record state / emitted event distinguish the outcomes. -/
theorem updateSensor_skipped_noop_same_return :
    (∀ (s : AirQuality) (now : Int) (aqi : Nat) (pm25 pm10 co2 humidity temperature : ℚ),
      s.is_significant_change now aqi pm25 pm10 co2 humidity temperature = false →
      UpdateAirQuality.process s now aqi pm25 pm10 co2 humidity temperature = .ok (s, []) ∧
      returnValue (UpdateAirQuality.process s now aqi pm25 pm10 co2 humidity temperature) =
        .ok ()) ∧
    (∀ (s : AirQuality) (now : Int) (aqi : Nat) (pm25 pm10 co2 humidity temperature : ℚ),
      AirQuality.validate_sensor_data aqi pm25 pm10 co2 humidity temperature = .ok () →
      returnValue (UpdateAirQuality.process s now aqi pm25 pm10 co2 humidity temperature) =
        .ok ()) := by
  constructor
  · intro s now aqi pm25 pm10 co2 humidity temperature hsig
    simp [UpdateAirQuality.process, hsig, returnValue]
  · intro s now aqi pm25 pm10 co2 humidity temperature hval
    cases hsig : s.is_significant_change now aqi pm25 pm10 co2 humidity temperature with
    | false => simp [UpdateAirQuality.process, hsig, returnValue]
    | true =>
      simp [UpdateAirQuality.process, hsig, AirQuality.update_data, hval, returnValue]

/-- C2 witness: the skip branch of the amended theorem at the concrete
insignificant update. -/
theorem updateSensor_skipped_noop_same_return_witness :
    UpdateAirQuality.process sensorFixture 82800 52 10 10 400 50 20 = .ok (sensorFixture, []) ∧
    returnValue (UpdateAirQuality.process sensorFixture 82800 52 10 10 400 50 20) = .ok () :=
  updateSensor_skipped_noop_same_return.1 sensorFixture 82800 52 10 10 400 50 20
    sensorFixture_insig_52

/-- C8: `ExecuteContract` fails with `InactiveError` exactly when the active
flag is false, committing nothing on failure; on an active contract it
increments `executionCount` by exactly 1 (when the `u32` counter does not
wrap) and stamps `updatedAt`. -/
theorem executeContract_gate (r : Contract) (now : Int) :
    (ExecuteContract.process r now = .error .ContractInactive ↔ r.is_active = false) ∧
    (r.is_active = false → committed r (ExecuteContract.process r now) = r) ∧
    (r.is_active = true →
      ExecuteContract.process r now =
        .ok ({ r with
               execution_count := (r.execution_count + 1) % 2 ^ 32,
               updated_at := now },
             [Event.ContractExecuted r.key ((r.execution_count + 1) % 2 ^ 32) now])) ∧
    (r.is_active = true → r.execution_count + 1 < 2 ^ 32 →
      ExecuteContract.process r now =
        .ok ({ r with execution_count := r.execution_count + 1, updated_at := now },
             [Event.ContractExecuted r.key (r.execution_count + 1) now])) := by
  cases hact : r.is_active with
  | false =>
    refine ⟨?_, ?_, ?_, ?_⟩
    · simp [ExecuteContract.process, Contract.execute, hact]
    · intro _; simp [committed, ExecuteContract.process, Contract.execute, hact]
    · intro h; simp at h
    · intro h _; simp at h
  | true =>
    refine ⟨?_, ?_, ?_, ?_⟩
    · simp [ExecuteContract.process, Contract.execute, hact]
    · intro h; simp at h
    · intro _; simp [ExecuteContract.process, Contract.execute, hact]
    · intro _ hcnt
      have hm : (r.execution_count + 1) % 4294967296 = r.execution_count + 1 :=
        Nat.mod_eq_of_lt (by omega)
      simp [ExecuteContract.process, Contract.execute, hact, hm]

/-- C8 witness: the spec scenario — executing the fresh active contract twice
yields `executionCount = 2`, and executing it after deactivation yields
`InactiveError`. -/
theorem executeContract_gate_witness :
    ExecuteContract.process contractFixture 5 =
      .ok ({ contractFixture with execution_count := 1, updated_at := 5 },
           [Event.ContractExecuted 3 1 5]) ∧
    ExecuteContract.process { contractFixture with execution_count := 1, updated_at := 5 } 6 =
      .ok ({ contractFixture with execution_count := 2, updated_at := 6 },
           [Event.ContractExecuted 3 2 6]) ∧
    ExecuteContract.process { contractFixture with is_active := false } 7 =
      .error .ContractInactive := by
  refine ⟨?_, ?_, ?_⟩
  · have h := (executeContract_gate contractFixture 5).2.2.2 rfl (by decide)
    simpa [contractFixture] using h
  · have h := (executeContract_gate
      { contractFixture with execution_count := 1, updated_at := 5 } 6).2.2.2 rfl (by decide)
    simpa [contractFixture] using h
  · exact (executeContract_gate { contractFixture with is_active := false } 7).1.mpr rfl

/-- C10: sensor initialization applies only maximum byte-length checks to its
identifying strings — any location of at most 50 bytes and sensor id of at
most 30 bytes (empty strings included) succeed — while contract
initialization rejects an empty name or an empty contract type with
`InvalidInput`. -/
theorem initializeSensor_maxlength_only :
    (∀ (key authority : Pubkey) (now : Int) (location sensor_id : String),
      location.utf8ByteSize ≤ 50 → sensor_id.utf8ByteSize ≤ 30 →
      InitializeAirQuality.process key authority now location sensor_id =
        .ok ({ key := key, location := location, sensor_id := sensor_id,
               authority := authority, created_at := now, updated_at := now,
               update_count := 0, aqi := 0, pm25 := 0, pm10 := 0, co2 := 400,
               humidity := 50, temperature := 20 },
             [Event.AirQualityInitialized key location sensor_id authority])) ∧
    (∀ (key authority : Pubkey) (now : Int) (description contract_type : String),
      description.utf8ByteSize ≤ 200 → contract_type.utf8ByteSize ≤ 30 →
      InitializeContract.process key authority now "" description contract_type =
        .error .InvalidInput) ∧
    (∀ (key authority : Pubkey) (now : Int) (name description : String),
      name.utf8ByteSize ≤ 50 → name.isEmpty = false → description.utf8ByteSize ≤ 200 →
      InitializeContract.process key authority now name description "" =
        .error .InvalidInput) := by
  refine ⟨?_, ?_, ?_⟩
  · intro key authority now location sensor_id hl hs
    simp [InitializeAirQuality.process, hl, hs]
  · intro key authority now description contract_type hd ht
    simp [InitializeContract.process, Contract.validate_contract_data, hd, ht,
      empty_utf8ByteSize, empty_isEmpty]
  · intro key authority now name description hn hne hd
    simp [InitializeContract.process, Contract.validate_contract_data, hn, hne, hd,
      empty_utf8ByteSize, empty_isEmpty]

/-- C10 witness: both identifying strings empty is accepted for a sensor, and
the two contract rejections at concrete well-sized arguments. -/
theorem initializeSensor_maxlength_only_witness :
    InitializeAirQuality.process 9 7 0 "" "" =
      .ok ({ key := 9, location := "", sensor_id := "", authority := 7,
             created_at := 0, updated_at := 0, update_count := 0, aqi := 0,
             pm25 := 0, pm10 := 0, co2 := 400, humidity := 50, temperature := 20 },
           [Event.AirQualityInitialized 9 "" "" 7]) ∧
    InitializeContract.process 9 7 0 "" "desc" "utility" = .error .InvalidInput ∧
    InitializeContract.process 9 7 0 "water" "desc" "" = .error .InvalidInput :=
  ⟨initializeSensor_maxlength_only.1 9 7 0 "" "" (by decide) (by decide),
   initializeSensor_maxlength_only.2.1 9 7 0 "desc" "utility" (by decide) (by decide),
   initializeSensor_maxlength_only.2.2 9 7 0 "water" "desc" (by decide) (by decide) (by decide)⟩

theorem except_bind_error {α β : Type} (e : CustomError) (f : α → Except CustomError β) :
    (Except.error e >>= f) = .error e := rfl

theorem except_bind_ok {α β : Type} (a : α) (f : α → Except CustomError β) :
    (Except.ok a >>= f) = f a := rfl

/-- A bad entry makes the batch loop body fail. -/
theorem badEntry_batchBody_error (s : AirQuality) (now : Int) (v : SensorData)
    (h : badEntry s now v) : ∃ e, batchBody s now v = .error e := by
  obtain ⟨aqi, pm25, pm10, co2, humidity, temperature⟩ := v
  obtain ⟨hsig, hval⟩ := h
  cases hv : AirQuality.validate_sensor_data aqi pm25 pm10 co2 humidity temperature with
  | error e => exact ⟨e, by simp [batchBody, hsig, AirQuality.update_data, hv]⟩
  | ok u => cases u; exact absurd hv hval

/-- The batch loop body either fails or returns a record with its events. -/
theorem batchBody_cases (s : AirQuality) (now : Int) (v : SensorData) :
    (∃ e, batchBody s now v = .error e) ∨
    (∃ p evs, batchBody s now v = .ok (p, evs)) := by
  cases h : batchBody s now v with
  | error e => exact Or.inl ⟨e, rfl⟩
  | ok p => obtain ⟨p1, p2⟩ := p; exact Or.inr ⟨p1, p2, rfl⟩

/-- C1 counterexample: a batch whose single entry proposes an out-of-range
value set (AQI 501) succeeds with no error and no mutation, because an entry
is range-validated only after it passes the significance gate; the claim that
any batch containing an invalid entry returns an error is false at this
input. -/
theorem batchUpdate_invalid_entry_not_error :
    AirQuality.validate_sensor_data 501 0 0 400 50 20 = .error .InvalidAQIValue ∧
    BatchUpdateAirQuality.process sensorAtCap sensorFixture sensorFixture 0
      [(501, 0, 0, 400, 50, 20)] = .ok ((sensorAtCap, sensorFixture, sensorFixture), []) := by
  constructor
  · norm_num [AirQuality.validate_sensor_data]
  · have hs : sensorAtCap.is_significant_change 0 501 0 0 400 50 20 = false := by
      norm_num [AirQuality.is_significant_change, sensorAtCap]
    simp [BatchUpdateAirQuality.process, BatchUpdateAirQuality.loop, batchBody, hs]

/-- C1 (amended): for every sensor batch of at most 3 entries in which some
entry's proposed value set is a *significant change* for its target record and
fails range validation, the batch operation returns an error and commits no
mutation for any entry — including entries processed before the failing one:
the committed state of all three records equals the pre-invocation state. -/
theorem batchUpdate_significant_invalid_aborts (s1 s2 s3 : AirQuality) (now : Int)
    (sensor_data : List SensorData) (hlen : sensor_data.length ≤ 3)
    (hbad : (∃ v rest, sensor_data = v :: rest ∧ badEntry s1 now v) ∨
            (∃ v1 v rest, sensor_data = v1 :: v :: rest ∧ badEntry s2 now v) ∨
            (∃ v1 v2 v rest, sensor_data = v1 :: v2 :: v :: rest ∧ badEntry s3 now v)) :
    (∃ e, BatchUpdateAirQuality.process s1 s2 s3 now sensor_data = .error e) ∧
    committed (s1, s2, s3) (BatchUpdateAirQuality.process s1 s2 s3 now sensor_data) =
      (s1, s2, s3) := by
  suffices h : ∃ e, BatchUpdateAirQuality.process s1 s2 s3 now sensor_data = .error e by
    obtain ⟨e, he⟩ := h
    exact ⟨⟨e, he⟩, by simp [committed, he]⟩
  have hproc : BatchUpdateAirQuality.process s1 s2 s3 now sensor_data =
      BatchUpdateAirQuality.loop s1 s2 s3 now sensor_data := by
    simp [BatchUpdateAirQuality.process, hlen]
  rw [hproc]
  rcases hbad with ⟨v, rest, hd, hb⟩ | ⟨v1, v, rest, hd, hb⟩ | ⟨v1, v2, v, rest, hd, hb⟩
  · subst hd
    obtain ⟨e, he⟩ := badEntry_batchBody_error s1 now v hb
    rcases rest with _ | ⟨a, _ | ⟨b, _ | ⟨c, tail⟩⟩⟩
    · exact ⟨e, by simp [BatchUpdateAirQuality.loop, he, except_bind_error]⟩
    · exact ⟨e, by simp [BatchUpdateAirQuality.loop, he, except_bind_error]⟩
    · exact ⟨e, by simp [BatchUpdateAirQuality.loop, he, except_bind_error]⟩
    · exfalso; simp [List.length] at hlen
  · subst hd
    obtain ⟨e, he⟩ := badEntry_batchBody_error s2 now v hb
    rcases batchBody_cases s1 now v1 with ⟨e1, he1⟩ | ⟨p1, evs1, hok1⟩
    · rcases rest with _ | ⟨a, _ | ⟨b, tail⟩⟩
      · exact ⟨e1, by simp [BatchUpdateAirQuality.loop, he1, except_bind_error]⟩
      · exact ⟨e1, by simp [BatchUpdateAirQuality.loop, he1, except_bind_error]⟩
      · exfalso; simp [List.length] at hlen
    · rcases rest with _ | ⟨a, _ | ⟨b, tail⟩⟩
      · exact ⟨e, by simp [BatchUpdateAirQuality.loop, hok1, he,
          except_bind_error, except_bind_ok]⟩
      · exact ⟨e, by simp [BatchUpdateAirQuality.loop, hok1, he,
          except_bind_error, except_bind_ok]⟩
      · exfalso; simp [List.length] at hlen
  · subst hd
    obtain ⟨e, he⟩ := badEntry_batchBody_error s3 now v hb
    rcases rest with _ | ⟨a, tail⟩
    · rcases batchBody_cases s1 now v1 with ⟨e1, he1⟩ | ⟨p1, evs1, hok1⟩
      · exact ⟨e1, by simp [BatchUpdateAirQuality.loop, he1, except_bind_error]⟩
      · rcases batchBody_cases s2 now v2 with ⟨e2, he2⟩ | ⟨p2, evs2, hok2⟩
        · exact ⟨e2, by simp [BatchUpdateAirQuality.loop, hok1, he2,
            except_bind_error, except_bind_ok]⟩
        · exact ⟨e, by simp [BatchUpdateAirQuality.loop, hok1, hok2, he,
            except_bind_error, except_bind_ok]⟩
    · exfalso; simp [List.length] at hlen


/-- C1 witness: a single-entry batch whose entry is a significant change
(AQI 50 to 600) and out of range (600 > 500) errors and commits nothing. -/
theorem batchUpdate_significant_invalid_aborts_witness :
    (∃ e, BatchUpdateAirQuality.process sensorFixture sensorFixture sensorFixture 0
      [(600, 10, 10, 400, 50, 20)] = .error e) ∧
    committed (sensorFixture, sensorFixture, sensorFixture)
      (BatchUpdateAirQuality.process sensorFixture sensorFixture sensorFixture 0
        [(600, 10, 10, 400, 50, 20)]) =
      (sensorFixture, sensorFixture, sensorFixture) := by
  have hb : badEntry sensorFixture 0 (600, 10, 10, 400, 50, 20) := by
    refine ⟨?_, ?_⟩
    · norm_num [AirQuality.is_significant_change, sensorFixture]
    · simp [AirQuality.validate_sensor_data]
  exact batchUpdate_significant_invalid_aborts sensorFixture sensorFixture sensorFixture 0
    [(600, 10, 10, 400, 50, 20)] (by norm_num)
    (Or.inl ⟨(600, 10, 10, 400, 50, 20), [], rfl, hb⟩)

/-- C7 counterexample: the over-limit batches do fail immediately, but with
the generic `InvalidInput` code — the same code the contract validator raises
for an empty name — and not with the dedicated `BatchOperationLimitExceeded`
variant that `errors.rs` declares; a distinct batch-limit error kind is not
what is raised. -/
theorem batch_over_limit_error_code :
    BatchUpdateAirQuality.process sensorFixture sensorFixture sensorFixture 0
      [(50, 10, 10, 400, 50, 20), (50, 10, 10, 400, 50, 20),
       (50, 10, 10, 400, 50, 20), (50, 10, 10, 400, 50, 20)] = .error .InvalidInput ∧
    BatchUpdateAirQuality.process sensorFixture sensorFixture sensorFixture 0
      [(50, 10, 10, 400, 50, 20), (50, 10, 10, 400, 50, 20),
       (50, 10, 10, 400, 50, 20), (50, 10, 10, 400, 50, 20)] ≠
      .error .BatchOperationLimitExceeded ∧
    BatchContractOperation.process_batch_status_update contractFixture contractFixture 0
      [true, false, true] = .error .InvalidInput ∧
    BatchContractOperation.process_batch_status_update contractFixture contractFixture 0
      [true, false, true] ≠ .error .BatchOperationLimitExceeded ∧
    Contract.validate_contract_data "" "d" "t" = .error .InvalidInput := by
  refine ⟨?_, ?_, ?_, ?_, by decide⟩ <;>
    simp [BatchUpdateAirQuality.process,
      BatchContractOperation.process_batch_status_update]

/-- C7 (amended): a sensor batch of more than 3 entries and a contract batch
of more than 2 entries each fail immediately — the size check runs before any
entry is examined, so no record is mutated — raising the generic
`InvalidInput` error (not a dedicated batch-limit error kind). -/
theorem batch_over_limit_fails_immediately :
    (∀ (s1 s2 s3 : AirQuality) (now : Int) (sensor_data : List SensorData),
      3 < sensor_data.length →
      BatchUpdateAirQuality.process s1 s2 s3 now sensor_data = .error .InvalidInput ∧
      committed (s1, s2, s3) (BatchUpdateAirQuality.process s1 s2 s3 now sensor_data) =
        (s1, s2, s3)) ∧
    (∀ (c1 c2 : Contract) (now : Int) (statuses : List Bool),
      2 < statuses.length →
      BatchContractOperation.process_batch_status_update c1 c2 now statuses =
        .error .InvalidInput ∧
      committed (c1, c2)
        (BatchContractOperation.process_batch_status_update c1 c2 now statuses) =
        (c1, c2)) := by
  constructor
  · intro s1 s2 s3 now sensor_data h
    have hnot : ¬ sensor_data.length ≤ 3 := by omega
    have hp : BatchUpdateAirQuality.process s1 s2 s3 now sensor_data =
        .error .InvalidInput := by
      simp [BatchUpdateAirQuality.process, hnot]
    exact ⟨hp, by simp [committed, hp]⟩
  · intro c1 c2 now statuses h
    have hnot : ¬ statuses.length ≤ 2 := by omega
    have hp : BatchContractOperation.process_batch_status_update c1 c2 now statuses =
        .error .InvalidInput := by
      simp [BatchContractOperation.process_batch_status_update, hnot]
    exact ⟨hp, by simp [committed, hp]⟩

/-- C7 witness: the spec scenario — a batch of 4 sensor updates errors and
commits nothing, and so does a batch of 3 contract status updates. -/
theorem batch_over_limit_fails_immediately_witness :
    (BatchUpdateAirQuality.process sensorFixture sensorFixture sensorFixture 0
      [(50, 10, 10, 400, 50, 20), (50, 10, 10, 400, 50, 20),
       (50, 10, 10, 400, 50, 20), (50, 10, 10, 400, 50, 20)] = .error .InvalidInput ∧
     committed (sensorFixture, sensorFixture, sensorFixture)
       (BatchUpdateAirQuality.process sensorFixture sensorFixture sensorFixture 0
         [(50, 10, 10, 400, 50, 20), (50, 10, 10, 400, 50, 20),
          (50, 10, 10, 400, 50, 20), (50, 10, 10, 400, 50, 20)]) =
       (sensorFixture, sensorFixture, sensorFixture)) ∧
    (BatchContractOperation.process_batch_status_update contractFixture contractFixture 0
      [true, false, true] = .error .InvalidInput ∧
     committed (contractFixture, contractFixture)
       (BatchContractOperation.process_batch_status_update contractFixture contractFixture 0
         [true, false, true]) = (contractFixture, contractFixture)) :=
  ⟨batch_over_limit_fails_immediately.1 sensorFixture sensorFixture sensorFixture 0
     [(50, 10, 10, 400, 50, 20), (50, 10, 10, 400, 50, 20),
      (50, 10, 10, 400, 50, 20), (50, 10, 10, 400, 50, 20)] (by norm_num),
   batch_over_limit_fails_immediately.2 contractFixture contractFixture 0
     [true, false, true] (by norm_num)⟩

/-- `validate_contract_data` succeeds exactly when all three components meet
their bounds. -/
theorem validate_contract_data_ok_iff (name description contract_type : String) :
    Contract.validate_contract_data name description contract_type = .ok () ↔
      (name.utf8ByteSize ≤ 50 ∧ description.utf8ByteSize ≤ 200 ∧
       contract_type.utf8ByteSize ≤ 30 ∧ name.isEmpty = false ∧
       contract_type.isEmpty = false) := by
  unfold Contract.validate_contract_data
  split_ifs with h1 h2 h3 h4 h5 <;> simp_all

/-- Every error raised by `validate_contract_data` is a validation error. -/
theorem validate_contract_data_error_kind (n d t : String) (e : CustomError)
    (h : Contract.validate_contract_data n d t = .error e) :
    e.isValidationError = true := by
  unfold Contract.validate_contract_data at h
  split_ifs at h <;> first
    | (injection h with h; subst h; rfl)
    | simp at h

theorem exceptUnit_cases (x : Except CustomError Unit) :
    x = .ok () ∨ ∃ e, x = .error e := by
  cases x with
  | ok u => cases u; exact Or.inl rfl
  | error e => exact Or.inr ⟨e, rfl⟩

/-- The three possible outcomes of the name block of `update_contract`. -/
theorem nameStep_shape (r : Contract) (o : Option String) :
    ((o = none ∨ o = some r.name) ∧ Contract.nameStep r o = .ok (r, false)) ∨
    (∃ n, o = some n ∧ n ≠ r.name ∧
      Contract.validate_contract_data n r.description r.contract_type = .ok () ∧
      Contract.nameStep r o = .ok ({ r with name := n }, true)) ∨
    (∃ n e, o = some n ∧ n ≠ r.name ∧
      Contract.validate_contract_data n r.description r.contract_type = .error e ∧
      Contract.nameStep r o = .error e) := by
  cases o with
  | none => exact Or.inl ⟨Or.inl rfl, rfl⟩
  | some n =>
    by_cases hn : n = r.name
    · subst hn
      exact Or.inl ⟨Or.inr rfl, by simp [Contract.nameStep]⟩
    · rcases exceptUnit_cases
        (Contract.validate_contract_data n r.description r.contract_type) with hv | ⟨e, hv⟩
      · exact Or.inr (Or.inl ⟨n, rfl, hn, hv, by simp [Contract.nameStep, hn, hv]⟩)
      · exact Or.inr (Or.inr ⟨n, e, rfl, hn, hv, by simp [Contract.nameStep, hn, hv]⟩)

/-- The three possible outcomes of the description block of
`update_contract`. -/
theorem descriptionStep_shape (r : Contract) (o : Option String) :
    ((o = none ∨ o = some r.description) ∧ Contract.descriptionStep r o = .ok (r, false)) ∨
    (∃ d, o = some d ∧ d ≠ r.description ∧
      Contract.validate_contract_data r.name d r.contract_type = .ok () ∧
      Contract.descriptionStep r o = .ok ({ r with description := d }, true)) ∨
    (∃ d e, o = some d ∧ d ≠ r.description ∧
      Contract.validate_contract_data r.name d r.contract_type = .error e ∧
      Contract.descriptionStep r o = .error e) := by
  cases o with
  | none => exact Or.inl ⟨Or.inl rfl, rfl⟩
  | some d =>
    by_cases hd : d = r.description
    · subst hd
      exact Or.inl ⟨Or.inr rfl, by simp [Contract.descriptionStep]⟩
    · rcases exceptUnit_cases
        (Contract.validate_contract_data r.name d r.contract_type) with hv | ⟨e, hv⟩
      · exact Or.inr (Or.inl ⟨d, rfl, hd, hv, by simp [Contract.descriptionStep, hd, hv]⟩)
      · exact Or.inr (Or.inr ⟨d, e, rfl, hd, hv, by simp [Contract.descriptionStep, hd, hv]⟩)

/-- The three possible outcomes of the type block of `update_contract`. -/
theorem typeStep_shape (r : Contract) (o : Option String) :
    ((o = none ∨ o = some r.contract_type) ∧ Contract.typeStep r o = .ok (r, false)) ∨
    (∃ t, o = some t ∧ t ≠ r.contract_type ∧
      Contract.validate_contract_data r.name r.description t = .ok () ∧
      Contract.typeStep r o = .ok ({ r with contract_type := t }, true)) ∨
    (∃ t e, o = some t ∧ t ≠ r.contract_type ∧
      Contract.validate_contract_data r.name r.description t = .error e ∧
      Contract.typeStep r o = .error e) := by
  cases o with
  | none => exact Or.inl ⟨Or.inl rfl, rfl⟩
  | some t =>
    by_cases ht : t = r.contract_type
    · subst ht
      exact Or.inl ⟨Or.inr rfl, by simp [Contract.typeStep]⟩
    · rcases exceptUnit_cases
        (Contract.validate_contract_data r.name r.description t) with hv | ⟨e, hv⟩
      · exact Or.inr (Or.inl ⟨t, rfl, ht, hv, by simp [Contract.typeStep, ht, hv]⟩)
      · exact Or.inr (Or.inr ⟨t, e, rfl, ht, hv, by simp [Contract.typeStep, ht, hv]⟩)


/-- Chaining the three step outcomes through the monadic body of
`update_contract`. -/
theorem update_contract_chain (r r1 r2 r3 : Contract) (c1 c2 c3 : Bool) (now : Int)
    (n? d? t? : Option String)
    (h1 : Contract.nameStep r n? = .ok (r1, c1))
    (h2 : Contract.descriptionStep r1 d? = .ok (r2, c2))
    (h3 : Contract.typeStep r2 t? = .ok (r3, c3)) :
    r.update_contract now n? d? t? =
      if c1 || c2 || c3 then
        .ok ({ r3 with updated_at := now, version := (r3.version + 1) % 2 ^ 32 }, true)
      else .ok (r3, false) := by
  simp [Contract.update_contract, h1, h2, h3, except_bind_ok, pure, Except.pure]

theorem update_contract_err1 (r : Contract) (e : CustomError) (now : Int)
    (n? d? t? : Option String) (h1 : Contract.nameStep r n? = .error e) :
    r.update_contract now n? d? t? = .error e := by
  simp [Contract.update_contract, h1, except_bind_error]

theorem update_contract_err2 (r r1 : Contract) (c1 : Bool) (e : CustomError) (now : Int)
    (n? d? t? : Option String)
    (h1 : Contract.nameStep r n? = .ok (r1, c1))
    (h2 : Contract.descriptionStep r1 d? = .error e) :
    r.update_contract now n? d? t? = .error e := by
  simp [Contract.update_contract, h1, h2, except_bind_ok, except_bind_error]

theorem update_contract_err3 (r r1 r2 : Contract) (c1 c2 : Bool) (e : CustomError)
    (now : Int) (n? d? t? : Option String)
    (h1 : Contract.nameStep r n? = .ok (r1, c1))
    (h2 : Contract.descriptionStep r1 d? = .ok (r2, c2))
    (h3 : Contract.typeStep r2 t? = .error e) :
    r.update_contract now n? d? t? = .error e := by
  simp [Contract.update_contract, h1, h2, h3, except_bind_ok, except_bind_error]

/-- Full characterization of `update_contract`: it skips exactly when every
provided field equals its current value; otherwise it either applies the
differing validated fields, bumping `version` and `updated_at` once, or aborts
with a validation error raised for some differing field. -/
theorem update_contract_spec (r : Contract) (now : Int) (n? d? t? : Option String) :
    (r.update_contract now n? d? t? = .ok (r, false) ∧
      (n? = none ∨ n? = some r.name) ∧ (d? = none ∨ d? = some r.description) ∧
      (t? = none ∨ t? = some r.contract_type)) ∨
    ((∃ r', r.update_contract now n? d? t? = .ok (r', true) ∧
        r'.version = (r.version + 1) % 2 ^ 32 ∧ r'.updated_at = now) ∧
      ¬((n? = none ∨ n? = some r.name) ∧ (d? = none ∨ d? = some r.description) ∧
        (t? = none ∨ t? = some r.contract_type)) ∧
      (∀ n, n? = some n → n ≠ r.name →
        Contract.validate_contract_data n r.description r.contract_type = .ok ()) ∧
      (∀ d, d? = some d → d ≠ r.description → d.utf8ByteSize ≤ 200) ∧
      (∀ t, t? = some t → t ≠ r.contract_type →
        t.utf8ByteSize ≤ 30 ∧ t.isEmpty = false)) ∨
    ((∃ e, r.update_contract now n? d? t? = .error e ∧ e.isValidationError = true) ∧
      ¬((n? = none ∨ n? = some r.name) ∧ (d? = none ∨ d? = some r.description) ∧
        (t? = none ∨ t? = some r.contract_type))) := by
  have noneOr : ∀ (o : Option String) (x y : String),
      (o = none ∨ o = some x) → o = some y → y ≠ x → False := by
    rintro o x y (rfl | rfl) h hne
    · exact Option.noConfusion h
    · injection h with h; exact hne h.symm
  rcases nameStep_shape r n? with ⟨hq1, h1⟩ | ⟨n, hn, hne, hv1, h1⟩ | ⟨n, e, hn, hne, hv1, h1⟩
  · rcases descriptionStep_shape r d? with ⟨hq2, h2⟩ | ⟨d, hd, hdne, hv2, h2⟩ |
      ⟨d, e, hd, hdne, hv2, h2⟩
    · rcases typeStep_shape r t? with ⟨hq3, h3⟩ | ⟨t, ht, htne, hv3, h3⟩ |
        ⟨t, e, ht, htne, hv3, h3⟩
      · left
        have hch := update_contract_chain r r r r false false false now n? d? t? h1 h2 h3
        simp at hch
        exact ⟨hch, hq1, hq2, hq3⟩
      · have hch := update_contract_chain r r r ({ r with contract_type := t })
          false false true now n? d? t? h1 h2 h3
        simp at hch
        refine Or.inr (Or.inl ⟨⟨_, hch, by simp, by simp⟩, ?_, ?_, ?_, ?_⟩)
        · rintro ⟨-, -, hc3⟩; exact noneOr t? r.contract_type t hc3 ht htne
        · intro n' hn' hne'; exact (noneOr n? r.name n' hq1 hn' hne').elim
        · intro d' hd' hdne'; exact (noneOr d? r.description d' hq2 hd' hdne').elim
        · intro t' ht' _
          rw [ht] at ht'; injection ht' with ht'; subst ht'
          have hc := (validate_contract_data_ok_iff _ _ _).mp hv3
          exact ⟨hc.2.2.1, hc.2.2.2.2⟩
      · refine Or.inr (Or.inr ⟨⟨e, update_contract_err3 r r r false false e now n? d? t?
          h1 h2 h3, validate_contract_data_error_kind _ _ _ _ hv3⟩, ?_⟩)
        rintro ⟨-, -, hc3⟩; exact noneOr t? r.contract_type t hc3 ht htne
    · rcases typeStep_shape ({ r with description := d }) t? with ⟨hq3, h3⟩ |
        ⟨t, ht, htne, hv3, h3⟩ | ⟨t, e, ht, htne, hv3, h3⟩
      · have hch := update_contract_chain r r ({ r with description := d })
          ({ r with description := d }) false true false now n? d? t? h1 h2 h3
        simp at hch
        refine Or.inr (Or.inl ⟨⟨_, hch, by simp, by simp⟩, ?_, ?_, ?_, ?_⟩)
        · rintro ⟨-, hc2, -⟩; exact noneOr d? r.description d hc2 hd hdne
        · intro n' hn' hne'; exact (noneOr n? r.name n' hq1 hn' hne').elim
        · intro d' hd' _
          rw [hd] at hd'; injection hd' with hd'; subst hd'
          exact ((validate_contract_data_ok_iff _ _ _).mp hv2).2.1
        · intro t' ht' htne'; exact (noneOr t? r.contract_type t' hq3 ht' htne').elim
      · have hch := update_contract_chain r r ({ r with description := d })
          ({ r with description := d, contract_type := t })
          false true true now n? d? t? h1 h2 h3
        simp at hch
        refine Or.inr (Or.inl ⟨⟨_, hch, by simp, by simp⟩, ?_, ?_, ?_, ?_⟩)
        · rintro ⟨-, hc2, -⟩; exact noneOr d? r.description d hc2 hd hdne
        · intro n' hn' hne'; exact (noneOr n? r.name n' hq1 hn' hne').elim
        · intro d' hd' _
          rw [hd] at hd'; injection hd' with hd'; subst hd'
          exact ((validate_contract_data_ok_iff _ _ _).mp hv2).2.1
        · intro t' ht' _
          rw [ht] at ht'; injection ht' with ht'; subst ht'
          have hc := (validate_contract_data_ok_iff _ _ _).mp hv3
          exact ⟨hc.2.2.1, hc.2.2.2.2⟩
      · refine Or.inr (Or.inr ⟨⟨e, update_contract_err3 r r ({ r with description := d })
          false true e now n? d? t? h1 h2 h3,
          validate_contract_data_error_kind _ _ _ _ hv3⟩, ?_⟩)
        rintro ⟨-, hc2, -⟩; exact noneOr d? r.description d hc2 hd hdne
    · refine Or.inr (Or.inr ⟨⟨e, update_contract_err2 r r false e now n? d? t? h1 h2,
        validate_contract_data_error_kind _ _ _ _ hv2⟩, ?_⟩)
      rintro ⟨-, hc2, -⟩; exact noneOr d? r.description d hc2 hd hdne
  · rcases descriptionStep_shape ({ r with name := n }) d? with ⟨hq2, h2⟩ |
      ⟨d, hd, hdne, hv2, h2⟩ | ⟨d, e, hd, hdne, hv2, h2⟩
    · rcases typeStep_shape ({ r with name := n }) t? with ⟨hq3, h3⟩ |
        ⟨t, ht, htne, hv3, h3⟩ | ⟨t, e, ht, htne, hv3, h3⟩
      · have hch := update_contract_chain r ({ r with name := n }) ({ r with name := n })
          ({ r with name := n }) true false false now n? d? t? h1 h2 h3
        simp at hch
        refine Or.inr (Or.inl ⟨⟨_, hch, by simp, by simp⟩, ?_, ?_, ?_, ?_⟩)
        · rintro ⟨hc1, -, -⟩; exact noneOr n? r.name n hc1 hn hne
        · intro n' hn' _
          rw [hn] at hn'; injection hn' with hn'; subst hn'; exact hv1
        · intro d' hd' hdne'; exact (noneOr d? r.description d' hq2 hd' hdne').elim
        · intro t' ht' htne'; exact (noneOr t? r.contract_type t' hq3 ht' htne').elim
      · have hch := update_contract_chain r ({ r with name := n }) ({ r with name := n })
          ({ r with name := n, contract_type := t }) true false true now n? d? t? h1 h2 h3
        simp at hch
        refine Or.inr (Or.inl ⟨⟨_, hch, by simp, by simp⟩, ?_, ?_, ?_, ?_⟩)
        · rintro ⟨hc1, -, -⟩; exact noneOr n? r.name n hc1 hn hne
        · intro n' hn' _
          rw [hn] at hn'; injection hn' with hn'; subst hn'; exact hv1
        · intro d' hd' hdne'; exact (noneOr d? r.description d' hq2 hd' hdne').elim
        · intro t' ht' _
          rw [ht] at ht'; injection ht' with ht'; subst ht'
          have hc := (validate_contract_data_ok_iff _ _ _).mp hv3
          exact ⟨hc.2.2.1, hc.2.2.2.2⟩
      · refine Or.inr (Or.inr ⟨⟨e, update_contract_err3 r ({ r with name := n })
          ({ r with name := n }) true false e now n? d? t? h1 h2 h3,
          validate_contract_data_error_kind _ _ _ _ hv3⟩, ?_⟩)
        rintro ⟨hc1, -, -⟩; exact noneOr n? r.name n hc1 hn hne
    · rcases typeStep_shape ({ r with name := n, description := d }) t? with ⟨hq3, h3⟩ |
        ⟨t, ht, htne, hv3, h3⟩ | ⟨t, e, ht, htne, hv3, h3⟩
      · have hch := update_contract_chain r ({ r with name := n })
          ({ r with name := n, description := d })
          ({ r with name := n, description := d }) true true false now n? d? t? h1
          (by simpa using h2) (by simpa using h3)
        simp at hch
        refine Or.inr (Or.inl ⟨⟨_, hch, by simp, by simp⟩, ?_, ?_, ?_, ?_⟩)
        · rintro ⟨hc1, -, -⟩; exact noneOr n? r.name n hc1 hn hne
        · intro n' hn' _
          rw [hn] at hn'; injection hn' with hn'; subst hn'; exact hv1
        · intro d' hd' _
          rw [hd] at hd'; injection hd' with hd'; subst hd'
          exact ((validate_contract_data_ok_iff _ _ _).mp hv2).2.1
        · intro t' ht' htne'; exact (noneOr t? r.contract_type t' hq3 ht' htne').elim
      · have hch := update_contract_chain r ({ r with name := n })
          ({ r with name := n, description := d })
          ({ r with name := n, description := d, contract_type := t })
          true true true now n? d? t? h1 (by simpa using h2) (by simpa using h3)
        simp at hch
        refine Or.inr (Or.inl ⟨⟨_, hch, by simp, by simp⟩, ?_, ?_, ?_, ?_⟩)
        · rintro ⟨hc1, -, -⟩; exact noneOr n? r.name n hc1 hn hne
        · intro n' hn' _
          rw [hn] at hn'; injection hn' with hn'; subst hn'; exact hv1
        · intro d' hd' _
          rw [hd] at hd'; injection hd' with hd'; subst hd'
          exact ((validate_contract_data_ok_iff _ _ _).mp hv2).2.1
        · intro t' ht' _
          rw [ht] at ht'; injection ht' with ht'; subst ht'
          have hc := (validate_contract_data_ok_iff _ _ _).mp hv3
          exact ⟨hc.2.2.1, hc.2.2.2.2⟩
      · refine Or.inr (Or.inr ⟨⟨e, update_contract_err3 r ({ r with name := n })
          ({ r with name := n, description := d }) true true e now n? d? t? h1
          (by simpa using h2) (by simpa using h3),
          validate_contract_data_error_kind _ _ _ _ hv3⟩, ?_⟩)
        rintro ⟨hc1, -, -⟩; exact noneOr n? r.name n hc1 hn hne
    · refine Or.inr (Or.inr ⟨⟨e, update_contract_err2 r ({ r with name := n }) true e
        now n? d? t? h1 h2, validate_contract_data_error_kind _ _ _ _ hv2⟩, ?_⟩)
      rintro ⟨hc1, -, -⟩; exact noneOr n? r.name n hc1 hn hne
  · refine Or.inr (Or.inr ⟨⟨e, update_contract_err1 r e now n? d? t? h1,
      validate_contract_data_error_kind _ _ _ _ hv1⟩, ?_⟩)
    rintro ⟨hc1, -, -⟩; exact noneOr n? r.name n hc1 hn hne

/-- C9: `UpdateContractDetails` in which every provided optional field equals
the record's current value (or is absent) returns `Skipped` — `Ok` with the
record completely unchanged (`version`, `updatedAt`, `name`, `description`,
`contract_type`) and no event; conversely a successful invocation in which
some provided field differs from its current value bumps `version` by exactly
1 (assuming the `u32` counter does not wrap). -/
theorem updateContractDetails_skip_or_bump (r : Contract) (now : Int)
    (n? d? t? : Option String) :
    ((n? = none ∨ n? = some r.name) → (d? = none ∨ d? = some r.description) →
      (t? = none ∨ t? = some r.contract_type) →
      UpdateContractDetails.process r now n? d? t? = .ok (r, [])) ∧
    (∀ r' evs, UpdateContractDetails.process r now n? d? t? = .ok (r', evs) →
      ¬((n? = none ∨ n? = some r.name) ∧ (d? = none ∨ d? = some r.description) ∧
        (t? = none ∨ t? = some r.contract_type)) →
      r.version + 1 < 2 ^ 32 → r'.version = r.version + 1) := by
  constructor
  · intro hq1 hq2 hq3
    rcases update_contract_spec r now n? d? t? with ⟨hu, -, -, -⟩ |
      ⟨-, hne, -⟩ | ⟨-, hne⟩
    · simp [UpdateContractDetails.process, hu]
    · exact absurd ⟨hq1, hq2, hq3⟩ hne
    · exact absurd ⟨hq1, hq2, hq3⟩ hne
  · intro r' evs hok hdiff hlt
    rcases update_contract_spec r now n? d? t? with ⟨-, hq1, hq2, hq3⟩ |
      ⟨⟨r'', hu, hver, -⟩, -⟩ | ⟨⟨e, hu, -⟩, -⟩
    · exact absurd ⟨hq1, hq2, hq3⟩ hdiff
    · rw [UpdateContractDetails.process, hu] at hok
      simp at hok
      obtain ⟨hr, -⟩ := hok
      rw [hr] at hver
      rw [hver]
      exact Nat.mod_eq_of_lt (by omega)
    · rw [UpdateContractDetails.process, hu] at hok
      simp at hok

/-- C9 witness: providing the current description verbatim yields `Skipped`
with the record unchanged, and a successful rename bumps `version` from 1
to 2 = 1 + 1. -/
theorem updateContractDetails_skip_or_bump_witness :
    UpdateContractDetails.process contractFixture 5 none (some "city water supply") none =
      .ok (contractFixture, []) ∧
    ({ contractFixture with name := "power", updated_at := 5, version := 2 } : Contract).version =
      contractFixture.version + 1 := by
  constructor
  · exact (updateContractDetails_skip_or_bump contractFixture 5 none
      (some "city water supply") none).1 (Or.inl rfl) (Or.inr rfl) (Or.inl rfl)
  · have hok : UpdateContractDetails.process contractFixture 5 (some "power") none none =
      .ok ({ contractFixture with name := "power", updated_at := 5, version := 2 },
           [Event.ContractUpdated 3 "power" "city water supply" "utility" 2 5]) := by
      decide
    exact (updateContractDetails_skip_or_bump contractFixture 5
      (some "power") none none).2 _ _ hok (by decide) (by decide)

/-- C3: on a well-formed contract record, whenever some provided optional
field substituted into the current (name, description, type) tuple fails
validation, `UpdateContractDetails` returns a validation error and applies no
field at all — the committed record is exactly the pre-invocation record —
even when another proposed field in the same invocation was valid and
differed from its current value. -/
theorem updateContractDetails_validation_aborts (r : Contract) (now : Int)
    (n? d? t? : Option String)
    (hwf : Contract.validate_contract_data r.name r.description r.contract_type = .ok ())
    (hbad :
      (∃ n, n? = some n ∧
        Contract.validate_contract_data n r.description r.contract_type ≠ .ok ()) ∨
      (∃ d, d? = some d ∧
        Contract.validate_contract_data r.name d r.contract_type ≠ .ok ()) ∨
      (∃ t, t? = some t ∧
        Contract.validate_contract_data r.name r.description t ≠ .ok ())) :
    (∃ e, UpdateContractDetails.process r now n? d? t? = .error e ∧
      e.isValidationError = true) ∧
    committed r (UpdateContractDetails.process r now n? d? t?) = r := by
  obtain ⟨hn50, hd200, ht30, hnE, htE⟩ := (validate_contract_data_ok_iff _ _ _).mp hwf
  rcases update_contract_spec r now n? d? t? with ⟨-, hq1, hq2, hq3⟩ |
    ⟨-, -, hvn, hvd, hvt⟩ | ⟨⟨e, hu, hkind⟩, -⟩
  · exfalso
    rcases hbad with ⟨n, hs, hv⟩ | ⟨d, hs, hv⟩ | ⟨t, hs, hv⟩
    · rcases hq1 with hq | hq
      · rw [hs] at hq; exact Option.noConfusion hq
      · rw [hs] at hq; injection hq with hq; rw [hq] at hv; exact hv hwf
    · rcases hq2 with hq | hq
      · rw [hs] at hq; exact Option.noConfusion hq
      · rw [hs] at hq; injection hq with hq; rw [hq] at hv; exact hv hwf
    · rcases hq3 with hq | hq
      · rw [hs] at hq; exact Option.noConfusion hq
      · rw [hs] at hq; injection hq with hq; rw [hq] at hv; exact hv hwf
  · exfalso
    rcases hbad with ⟨n, hs, hv⟩ | ⟨d, hs, hv⟩ | ⟨t, hs, hv⟩
    · by_cases hne : n = r.name
      · rw [hne] at hv; exact hv hwf
      · exact hv (hvn n hs hne)
    · by_cases hne : d = r.description
      · rw [hne] at hv; exact hv hwf
      · exact hv ((validate_contract_data_ok_iff _ _ _).mpr
          ⟨hn50, hvd d hs hne, ht30, hnE, htE⟩)
    · by_cases hne : t = r.contract_type
      · rw [hne] at hv; exact hv hwf
      · obtain ⟨h30, hE⟩ := hvt t hs hne
        exact hv ((validate_contract_data_ok_iff _ _ _).mpr
          ⟨hn50, hd200, h30, hnE, hE⟩)
  · refine ⟨⟨e, ?_, hkind⟩, ?_⟩
    · simp [UpdateContractDetails.process, hu]
    · simp [committed, UpdateContractDetails.process, hu]

/-- C3 witness: proposing a new valid, differing name together with an empty
contract type aborts the whole update with a validation error and commits
nothing, although the proposed name was valid and differed. -/
theorem updateContractDetails_validation_aborts_witness :
    (∃ e, UpdateContractDetails.process contractFixture 9 (some "power") none
      (some "") = .error e ∧ e.isValidationError = true) ∧
    committed contractFixture (UpdateContractDetails.process contractFixture 9
      (some "power") none (some "")) = contractFixture :=
  updateContractDetails_validation_aborts contractFixture 9 (some "power") none
    (some "") (by decide) (Or.inr (Or.inr ⟨"", rfl, by decide⟩))

/-- One accumulation step of `calculate_update_priority` adds exactly the
highest matching tier score of its field. -/
theorem acc_tier {α : Type} [LinearOrder α] (s : Nat) (x t1 t2 t3 : α) (s1 s2 s3 : Nat) :
    (if x > t1 then s + s1 else if x > t2 then s + s2 else if x > t3 then s + s3 else s) =
      s + highestTier x t1 t2 t3 s1 s2 s3 := by
  unfold highestTier
  split_ifs <;> omega

/-- `highestTier` is monotone in its argument when the tier scores decrease
with the tiers. -/
theorem highestTier_mono {α : Type} [LinearOrder α] (x y t1 t2 t3 : α) (s1 s2 s3 : Nat)
    (hxy : x ≤ y) (hs1 : s2 ≤ s1) (hs2 : s3 ≤ s2) :
    highestTier x t1 t2 t3 s1 s2 s3 ≤ highestTier y t1 t2 t3 s1 s2 s3 := by
  by_cases hx1 : x > t1
  · have hy1 : y > t1 := lt_of_lt_of_le hx1 hxy
    simp [highestTier, hx1, hy1]
  · by_cases hx2 : x > t2
    · have hy2 : y > t2 := lt_of_lt_of_le hx2 hxy
      by_cases hy1 : y > t1
      · simpa [highestTier, hx1, hx2, hy1] using hs1
      · simp [highestTier, hx1, hx2, hy1, hy2]
    · by_cases hx3 : x > t3
      · have hy3 : y > t3 := lt_of_lt_of_le hx3 hxy
        by_cases hy1 : y > t1
        · simpa [highestTier, hx1, hx2, hx3, hy1] using hs2.trans hs1
        · by_cases hy2 : y > t2
          · simpa [highestTier, hx1, hx2, hx3, hy1, hy2] using hs2
          · simp [highestTier, hx1, hx2, hx3, hy1, hy2, hy3]
      · simp [highestTier, hx1, hx2, hx3]

/-- The accumulated score is the sum of the per-field highest-tier
contributions. -/
theorem calculate_update_priority_eq (a p25 p10 c h t : ℚ) (ts : Int) :
    EconomicOptimizer.calculate_update_priority a p25 p10 c h t ts =
      highestTier a 10 5 2 100 50 20 + highestTier p25 15 10 5 80 40 16 +
      highestTier p10 20 15 10 60 30 12 + highestTier c 100 50 25 40 20 8 +
      highestTier h 20 10 5 20 10 4 + highestTier t 10 5 2 30 15 6 +
      highestTier ts 86400 43200 21600 100 50 25 := by
  simp only [EconomicOptimizer.calculate_update_priority, acc_tier]
  simp only [Nat.zero_add]

/-- C6: `calculate_update_priority` is monotone non-decreasing in each of its
seven arguments with the others fixed; per field the tiers are mutually
exclusive — the score decomposes as a sum of per-field contributions, each of
which is exactly the score of the single highest matching tier (no stacking);
and `should_update` returns true exactly when the priority score of the
absolute deltas and the elapsed time reaches the given minimum score. -/
theorem priority_monotone_exclusive_gate :
    (∀ (x y p25 p10 c h t : ℚ) (ts : Int), x ≤ y →
      EconomicOptimizer.calculate_update_priority x p25 p10 c h t ts ≤
        EconomicOptimizer.calculate_update_priority y p25 p10 c h t ts) ∧
    (∀ (a x y p10 c h t : ℚ) (ts : Int), x ≤ y →
      EconomicOptimizer.calculate_update_priority a x p10 c h t ts ≤
        EconomicOptimizer.calculate_update_priority a y p10 c h t ts) ∧
    (∀ (a p25 x y c h t : ℚ) (ts : Int), x ≤ y →
      EconomicOptimizer.calculate_update_priority a p25 x c h t ts ≤
        EconomicOptimizer.calculate_update_priority a p25 y c h t ts) ∧
    (∀ (a p25 p10 x y h t : ℚ) (ts : Int), x ≤ y →
      EconomicOptimizer.calculate_update_priority a p25 p10 x h t ts ≤
        EconomicOptimizer.calculate_update_priority a p25 p10 y h t ts) ∧
    (∀ (a p25 p10 c x y t : ℚ) (ts : Int), x ≤ y →
      EconomicOptimizer.calculate_update_priority a p25 p10 c x t ts ≤
        EconomicOptimizer.calculate_update_priority a p25 p10 c y t ts) ∧
    (∀ (a p25 p10 c h x y : ℚ) (ts : Int), x ≤ y →
      EconomicOptimizer.calculate_update_priority a p25 p10 c h x ts ≤
        EconomicOptimizer.calculate_update_priority a p25 p10 c h y ts) ∧
    (∀ (a p25 p10 c h t : ℚ) (ts ts' : Int), ts ≤ ts' →
      EconomicOptimizer.calculate_update_priority a p25 p10 c h t ts ≤
        EconomicOptimizer.calculate_update_priority a p25 p10 c h t ts') ∧
    (∀ (a p25 p10 c h t : ℚ) (ts : Int),
      EconomicOptimizer.calculate_update_priority a p25 p10 c h t ts =
        highestTier a 10 5 2 100 50 20 + highestTier p25 15 10 5 80 40 16 +
        highestTier p10 20 15 10 60 30 12 + highestTier c 100 50 25 40 20 8 +
        highestTier h 20 10 5 20 10 4 + highestTier t 10 5 2 30 15 6 +
        highestTier ts 86400 43200 21600 100 50 25) ∧
    (∀ (x t1 t2 t3 : ℚ) (s1 s2 s3 : Nat),
      (t1 < x → highestTier x t1 t2 t3 s1 s2 s3 = s1) ∧
      (¬ t1 < x → t2 < x → highestTier x t1 t2 t3 s1 s2 s3 = s2) ∧
      (¬ t1 < x → ¬ t2 < x → t3 < x → highestTier x t1 t2 t3 s1 s2 s3 = s3) ∧
      (¬ t1 < x → ¬ t2 < x → ¬ t3 < x → highestTier x t1 t2 t3 s1 s2 s3 = 0)) ∧
    (∀ (old_aqi new_aqi : Nat)
      (old_pm25 new_pm25 old_pm10 new_pm10 old_co2 new_co2
        old_humidity new_humidity old_temp new_temp : ℚ)
      (last_update now : Int) (minimum_score : Nat),
      EconomicOptimizer.should_update old_aqi new_aqi old_pm25 new_pm25 old_pm10
          new_pm10 old_co2 new_co2 old_humidity new_humidity old_temp new_temp
          last_update now minimum_score = true ↔
        minimum_score ≤ EconomicOptimizer.calculate_update_priority
          |(new_aqi : ℚ) - (old_aqi : ℚ)| |new_pm25 - old_pm25| |new_pm10 - old_pm10|
          |new_co2 - old_co2| |new_humidity - old_humidity| |new_temp - old_temp|
          (now - last_update)) := by
  refine ⟨?_, ?_, ?_, ?_, ?_, ?_, ?_, ?_, ?_, ?_⟩
  · intro x y p25 p10 c h t ts hxy
    rw [calculate_update_priority_eq, calculate_update_priority_eq]
    have hm := highestTier_mono x y (10 : ℚ) 5 2 100 50 20 hxy (by norm_num) (by norm_num)
    omega
  · intro a x y p10 c h t ts hxy
    rw [calculate_update_priority_eq, calculate_update_priority_eq]
    have hm := highestTier_mono x y (15 : ℚ) 10 5 80 40 16 hxy (by norm_num) (by norm_num)
    omega
  · intro a p25 x y c h t ts hxy
    rw [calculate_update_priority_eq, calculate_update_priority_eq]
    have hm := highestTier_mono x y (20 : ℚ) 15 10 60 30 12 hxy (by norm_num) (by norm_num)
    omega
  · intro a p25 p10 x y h t ts hxy
    rw [calculate_update_priority_eq, calculate_update_priority_eq]
    have hm := highestTier_mono x y (100 : ℚ) 50 25 40 20 8 hxy (by norm_num) (by norm_num)
    omega
  · intro a p25 p10 c x y t ts hxy
    rw [calculate_update_priority_eq, calculate_update_priority_eq]
    have hm := highestTier_mono x y (20 : ℚ) 10 5 20 10 4 hxy (by norm_num) (by norm_num)
    omega
  · intro a p25 p10 c h x y ts hxy
    rw [calculate_update_priority_eq, calculate_update_priority_eq]
    have hm := highestTier_mono x y (10 : ℚ) 5 2 30 15 6 hxy (by norm_num) (by norm_num)
    omega
  · intro a p25 p10 c h t ts ts' hxy
    rw [calculate_update_priority_eq, calculate_update_priority_eq]
    have hm := highestTier_mono ts ts' (86400 : Int) 43200 21600 100 50 25 hxy
      (by norm_num) (by norm_num)
    omega
  · exact calculate_update_priority_eq
  · intro x t1 t2 t3 s1 s2 s3
    refine ⟨?_, ?_, ?_, ?_⟩
    · intro h1; simp [highestTier, h1]
    · intro h1 h2; simp [highestTier, h1, h2]
    · intro h1 h2 h3; simp [highestTier, h1, h2, h3]
    · intro h1 h2 h3; simp [highestTier, h1, h2, h3]
  · intro old_aqi new_aqi old_pm25 new_pm25 old_pm10 new_pm10 old_co2 new_co2
      old_humidity new_humidity old_temp new_temp last_update now minimum_score
    simp [EconomicOptimizer.should_update, ge_iff_le, decide_eq_true_eq]

/-- C6 witness: monotonicity and the gate at concrete values — an AQI delta
of 3 scores no more than one of 7, and `should_update` with minimum score 40
accepts an AQI move from 50 to 60 (delta 10, score 50). -/
theorem priority_monotone_exclusive_gate_witness :
    EconomicOptimizer.calculate_update_priority 3 0 0 0 0 0 0 ≤
      EconomicOptimizer.calculate_update_priority 7 0 0 0 0 0 0 ∧
    (EconomicOptimizer.should_update 50 60 0 0 0 0 0 0 0 0 0 0 0 0 40 = true ↔
      40 ≤ EconomicOptimizer.calculate_update_priority
        |(60 : ℚ) - (50 : ℚ)| |(0 : ℚ) - 0| |(0 : ℚ) - 0| |(0 : ℚ) - 0| |(0 : ℚ) - 0|
        |(0 : ℚ) - 0| (0 - 0)) :=
  ⟨priority_monotone_exclusive_gate.1 3 7 0 0 0 0 0 0 (by norm_num),
   priority_monotone_exclusive_gate.2.2.2.2.2.2.2.2.2 50 60 0 0 0 0 0 0 0 0 0 0 0 0 40⟩

end CivicLedger
